import Mathlib

set_option maxRecDepth 1000000

/-!
Verification of the EMIT L1b radiometric calibration pipeline (emitrdn.py).

The embedding models numpy float arrays as rational-valued matrices with an
explicit shape (`QFrame`).  Exact rational arithmetic stands in for IEEE
floating point; since the rationals contain no non-finite values, the
non-finite clamps of the source are identity maps on finite data and are
embedded as such, with the loading-time non-finite bookkeeping modelled
explicitly through `Val := Option QQ` (`none` marks a non-finite entry).
-/

namespace EmitRdn

/-- A numeric frame: a matrix of rationals with an explicit shape, mirroring
a numpy 2-D float array.  Entries outside the shape are irrelevant. -/
structure QFrame where
  rows : Nat
  cols : Nat
  data : Nat → Nat → ℚ

/-- The runtime calibration configuration consumed by the correction stages,
mirroring the fields of `Config` that the per-frame pipeline reads. -/
structure PipeCfg where
  channels_raw : Nat
  columns_raw : Nat
  header_channels : Nat
  dark : Nat → Nat → ℚ
  dark_channels : List Nat
  panel_width : Nat
  pg_template : List ℚ
  panel_ghost_correction : ℚ
  flat_field : Nat → Nat → ℚ
  bad : Nat → Nat → Bool
  srf_correction : Nat → Nat → ℚ
  crf_correction : Nat → Nat → ℚ
  radiometric_calibration : Nat → ℚ
  reverse_channels : Bool

/-- `subtract_dark(frame, config) = frame - config.dark` (elementwise). -/
def subtract_dark (cfg : PipeCfg) (f : QFrame) : QFrame :=
  ⟨f.rows, f.cols, fun r c => f.data r c - cfg.dark r c⟩

/-- Mean of the entries of column `c` over a given list of row indices,
embedding `frame[rows, :].mean(axis=0)` evaluated at column `c`. -/
def colMeanOver (rows : List Nat) (f : QFrame) (c : Nat) : ℚ :=
  (rows.map fun i => f.data i c).sum / rows.length

/-- `correct_pedestal_shift`: subtract from every row the per-column mean of
the configured dark channel rows. -/
def correct_pedestal_shift (cfg : PipeCfg) (f : QFrame) : QFrame :=
  ⟨f.rows, f.cols, fun r c => f.data r c - colMeanOver cfg.dark_channels f c⟩

/-- Per-row mean of panel `p` (columns `p*panel_width ..< (p+1)*panel_width`),
embedding `frame[:, panelP].mean(axis=1)` at row `r`. -/
def panelAvg (cfg : PipeCfg) (f : QFrame) (p r : Nat) : ℚ :=
  ((List.range cfg.panel_width).map fun j =>
    f.data r (p * cfg.panel_width + j)).sum / cfg.panel_width

/-- `correct_panel_ghost`: additive inter-panel ghost correction.  Panels are
numbered 0..3 here (the source's panels 1..4).  Each panel receives
`panel_ghost_correction` times the elementwise sum of the other three panels,
except in its first `len(pg_template)` columns where it receives the
template outer product of the summed per-row means of the other three
panels, scaled by 1.6 for panels 0 and 1 (the source's panels 1 and 2).
Columns at or beyond `4*panel_width` land in the zero initialization of the
scratch array `new`. -/
def correct_panel_ghost (cfg : PipeCfg) (f : QFrame) : QFrame :=
  let pw := cfg.panel_width
  let nt := cfg.pg_template.length
  let pgc := cfg.panel_ghost_correction
  let avg := fun p r => panelAvg cfg f p r
  let cpan := fun p r j => f.data r (p * pw + j)
  let coef0 := fun r j =>
    if j < nt then (1.6 : ℚ) * (avg 1 r + avg 2 r + avg 3 r) * cfg.pg_template.getD j 0
    else pgc * (cpan 1 r j + cpan 2 r j + cpan 3 r j)
  let coef1 := fun r j =>
    if j < nt then (1.6 : ℚ) * (avg 0 r + avg 2 r + avg 3 r) * cfg.pg_template.getD j 0
    else pgc * (cpan 0 r j + cpan 2 r j + cpan 3 r j)
  let coef2 := fun r j =>
    if j < nt then (avg 0 r + avg 1 r + avg 3 r) * cfg.pg_template.getD j 0
    else pgc * (cpan 0 r j + cpan 1 r j + cpan 3 r j)
  let coef3 := fun r j =>
    if j < nt then (avg 0 r + avg 1 r + avg 2 r) * cfg.pg_template.getD j 0
    else pgc * (cpan 0 r j + cpan 1 r j + cpan 2 r j)
  ⟨f.rows, f.cols, fun r c =>
    if c < pw then f.data r c + coef0 r c
    else if c < 2 * pw then f.data r c + coef1 r (c - pw)
    else if c < 3 * pw then f.data r c + coef2 r (c - 2 * pw)
    else if c < 4 * pw then f.data r c + coef3 r (c - 3 * pw)
    else 0⟩

/-- The elementwise flat-field multiplication `frame * config.flat_field`
performed inline in `main`. -/
def mul_flat_field (cfg : PipeCfg) (f : QFrame) : QFrame :=
  ⟨f.rows, f.cols, fun r c => f.data r c * cfg.flat_field r c⟩

/-- `config.clean`: channels whose row of the bad-pixel mask is all false,
in ascending order (`sp.where(np.logical_not(self.bad).all(axis=1))[0]`). -/
def cleanChannels (cfg : PipeCfg) : List Nat :=
  (List.range cfg.channels_raw).filter fun r =>
    (List.range cfg.columns_raw).all fun c => !cfg.bad r c

/-- The columns visited by `fix_bad`, in ascending order
(`sp.nonzero(config.bad.any(axis=0))[0]`). -/
def badColumns (cfg : PipeCfg) : List Nat :=
  (List.range cfg.columns_raw).filter fun c =>
    (List.range cfg.channels_raw).any fun r => cfg.bad r c

/-- Decidable comparison of two cosine-similarity values, each represented as
a pair `(d, s)` denoting the real number `d / sqrt s` (`s > 0`).  Avoids the
irrational square root by comparing signs and cross-multiplied squares; the
lemma `simLe_iff_cosine` below proves it equivalent to the real comparison. -/
def simLe (a b : ℚ × ℚ) : Bool :=
  if a.1 ≤ 0 then
    if 0 ≤ b.1 then true
    else decide (b.1 ^ 2 * a.2 ≤ a.1 ^ 2 * b.2)
  else
    if b.1 ≤ 0 then false
    else decide (a.1 ^ 2 * b.2 ≤ b.1 ^ 2 * a.2)

/-- First-max argmax over a list, numpy `argmax` semantics: a later entry
replaces the current best only when strictly greater. -/
def argmaxFrom (le : ℚ × ℚ → ℚ × ℚ → Bool) :
    List (ℚ × ℚ) → Nat → Nat → ℚ × ℚ → Nat
  | [], _, bi, _ => bi
  | x :: xs, i, bi, bv =>
    if le x bv then argmaxFrom le xs (i + 1) bi bv
    else argmaxFrom le xs (i + 1) i x

/-- `sp.argmax` over a list of similarity values in pair representation. -/
def argmaxSim (l : List (ℚ × ℚ)) : Nat :=
  match l with
  | [] => 0
  | x :: xs => argmaxFrom simLe xs 1 0 x

/-- `frame[clean,:].T @ frame[clean, col]` evaluated at column `j`. -/
def dotClean (cfg : PipeCfg) (f : QFrame) (j k : Nat) : ℚ :=
  ((cleanChannels cfg).map fun r => f.data r j * f.data r k).sum

/-- Squared column norm over the clean channels: `linalg.norm(frame[clean, :],
axis=0)` at column `j`, squared. -/
def ssClean (cfg : PipeCfg) (f : QFrame) (j : Nat) : ℚ :=
  ((cleanChannels cfg).map fun r => f.data r j ^ 2).sum

/-- The similarity vector `sa` of `infer_bad` in pair representation: entry
`j` denotes `dot(col_j, col_col) / (norm_j * norm_col)`, with the self entry
overwritten by the sentinel `-9e99` (`sa[col] = -9e99`). -/
def saPairs (cfg : PipeCfg) (f : QFrame) (col : Nat) : List (ℚ × ℚ) :=
  (List.range cfg.columns_raw).map fun j =>
    if j = col then (-(9 * 10 ^ 99 : ℚ), 1)
    else (dotClean cfg f j col, ssClean cfg f j * ssClean cfg f col)

/-- Degree-1 `polyfit` by the closed-form normal equations of least squares
(slope, intercept), the exact-arithmetic solution of the regression the
source computes numerically. -/
def polyfit1 (xs ys : List ℚ) : ℚ × ℚ :=
  let n : ℚ := xs.length
  let sx := xs.sum
  let sy := ys.sum
  let sxx := (xs.map fun x => x ^ 2).sum
  let sxy := (List.zipWith (· * ·) xs ys).sum
  let det := n * sxx - sx ^ 2
  ((n * sxy - sx * sy) / det, (sxx * sy - sx * sxy) / det)

/-- `polyval([a, b], x) = a*x + b`. -/
def polyval1 (p : ℚ × ℚ) (x : ℚ) : ℚ := p.1 * x + p.2

/-- `infer_bad(frame, col, config)` as the column of values it returns: the
view `new = frame[:,col]` after the in-place write `new[bad] = polyval(p,
frame[bad, best])`.  Rows flagged bad in `col` carry the regression estimate
against the best-correlated column; other rows carry the current frame
value. -/
def infer_bad (cfg : PipeCfg) (f : QFrame) (col : Nat) : Nat → ℚ :=
  let best := argmaxSim (saPairs cfg f col)
  let p := polyfit1 ((cleanChannels cfg).map fun r => f.data r best)
                    ((cleanChannels cfg).map fun r => f.data r col)
  fun r => if cfg.bad r col then polyval1 p (f.data r best) else f.data r col

/-- The loop body state of `fix_bad`: first component the accumulating result
array `fixed`, second the input array `frame`, which `infer_bad` mutates in
place through the view `new = frame[:,col]` (its column `col` holds the
returned values after the call). -/
def fix_bad_run (cfg : PipeCfg) : List Nat → QFrame × QFrame → QFrame × QFrame
  | [], s => s
  | col :: rest, s =>
    let fr := s.2
    let newcol := infer_bad cfg fr col
    let frNext : QFrame := ⟨fr.rows, fr.cols, fun r c =>
      if c = col then newcol r else fr.data r c⟩
    let fxNext : QFrame := ⟨s.1.rows, s.1.cols, fun r c =>
      if c = col then newcol r else s.1.data r c⟩
    fix_bad_run cfg rest (fxNext, frNext)

/-- `fix_bad(frame, config)`: the returned array `fixed` (initialized as
`frame.copy()`), after processing the flagged columns in ascending order. -/
def fix_bad (cfg : PipeCfg) (f : QFrame) : QFrame :=
  (fix_bad_run cfg (badColumns cfg) (f, f)).1

/-- The state of the caller's `frame` array after `fix_bad` returns: the
source mutates it through the `new = frame[:,col]` views. -/
def fix_bad_after (cfg : PipeCfg) (f : QFrame) : QFrame :=
  (fix_bad_run cfg (badColumns cfg) (f, f)).2

/-- `fix_bad` with an arbitrary processing order of the flagged columns,
used to state the order-independence claim. -/
def fix_bad_ordered (cfg : PipeCfg) (f : QFrame) (order : List Nat) : QFrame :=
  (fix_bad_run cfg order (f, f)).1

/-- `correct_spectral_resp(frame, srf_correction)`: each column replaced by
`srf_correction @ column`, accumulated into a zero scratch array. -/
def correct_spectral_resp (f : QFrame) (srf : Nat → Nat → ℚ) : QFrame :=
  ⟨f.rows, f.cols, fun r c =>
    if r < f.rows ∧ c < f.cols then
      ((List.range f.rows).map fun j => srf r j * f.data j c).sum
    else 0⟩

/-- `correct_spatial_resp(frame, crf_correction)`: each row replaced by
`crf_correction @ row`, accumulated into a zero scratch array. -/
def correct_spatial_resp (f : QFrame) (crf : Nat → Nat → ℚ) : QFrame :=
  ⟨f.rows, f.cols, fun r c =>
    if r < f.rows ∧ c < f.cols then
      ((List.range f.cols).map fun j => crf c j * f.data r j).sum
    else 0⟩

/-- `(frame.T * config.radiometric_calibration).T`: scale channel row `r` by
`radiometric_calibration[r]`. -/
def apply_radiometric (cfg : PipeCfg) (f : QFrame) : QFrame :=
  ⟨f.rows, f.cols, fun r c => f.data r c * cfg.radiometric_calibration r⟩

/-- `frame[sp.logical_not(sp.isfinite(frame))] = 0`: replace non-finite
entries by zero.  Exact rationals are always finite, so on this value domain
the replacement is the identity. -/
def clamp_nonfinite (f : QFrame) : QFrame :=
  ⟨f.rows, f.cols, fun r c => f.data r c⟩

/-- `sp.flip(frame, axis=0)`: reverse the channel (row) axis. -/
def flip_channels (f : QFrame) : QFrame :=
  ⟨f.rows, f.cols, fun r c => f.data (f.rows - 1 - r) c⟩

/-- The per-frame correction chain of `main` up to and including the
non-finite clamp, before the optional channel reversal. -/
def processFrameNoRev (cfg : PipeCfg) (frame0 : QFrame) : QFrame :=
  let frame := subtract_dark cfg frame0
  let frame := correct_pedestal_shift cfg frame
  let frame := correct_panel_ghost cfg frame
  let frame := mul_flat_field cfg frame
  let frame := fix_bad cfg frame
  let frame := correct_spectral_resp frame cfg.srf_correction
  let frame := correct_spatial_resp frame cfg.crf_correction
  let frame := apply_radiometric cfg frame
  clamp_nonfinite frame

/-- The complete per-frame processing of `main`: the correction chain
followed by the optional channel reversal. -/
def processFrame (cfg : PipeCfg) (frame0 : QFrame) : QFrame :=
  if cfg.reverse_channels then flip_channels (processFrameNoRev cfg frame0)
  else processFrameNoRev cfg frame0

/-- Decoding one raw record: reshape to `(header_channels + channels_raw,
columns_raw)` row-major and strip the leading header rows
(`frame = raw[config.header_channels:, :]`). -/
def decodeChunk (cfg : PipeCfg) (chunk : List ℤ) : QFrame :=
  ⟨cfg.channels_raw, cfg.columns_raw, fun r c =>
    ((chunk.getD ((r + cfg.header_channels) * cfg.columns_raw + c) 0 : ℤ) : ℚ)⟩

/-- `config.nraw`: the sample count of one raw record. -/
def nrawOf (cfg : PipeCfg) : Nat :=
  (cfg.channels_raw + cfg.header_channels) * cfg.columns_raw

/-- The streaming loop of `main`: read `nraw` samples, stop cleanly when the
read returns nothing, process and emit a frame otherwise.  A nonzero read
shorter than `nraw` reaches `raw.reshape(config.raw_shape)`, which raises
`ValueError`; the second component records whether the loop terminated
cleanly (`true`) or aborted on that reshape (`false`).  The first component
collects the frames written to the output before termination. -/
def runStream (cfg : PipeCfg) (hn : 0 < nrawOf cfg) (input : List ℤ) :
    List QFrame × Bool :=
  if input.length = 0 then ([], true)
  else if input.length < nrawOf cfg then ([], false)
  else
    let out := processFrame cfg (decodeChunk cfg (input.take (nrawOf cfg)))
    let rest := runStream cfg hn (input.drop (nrawOf cfg))
    (out :: rest.1, rest.2)
termination_by input.length
decreasing_by
  simp only [List.length_drop]
  omega

/-! ## Calibration loading (`Config.__init__`)

Calibration file contents are modelled as functions into `Val := Option QQ`:
`none` marks a non-finite entry (NaN or infinity), `some q` a finite value.
A file is an optional pair of its element count and contents; `none` models
a reference that is absent (the path missing from the configuration or the
file unreadable), which raises in the source either as the caught
`AttributeError` or as an uncaught I/O error — in both cases the attribute
is never bound.  A count inconsistent with the declared shape makes
`reshape` (or the tuple unpacking of `loadtxt(...).T`) raise the caught
`ValueError`, which skips every remaining assignment of the `try` block.
The check loop that follows does `getattr` on eight tensor names; an
unbound name raises an uncaught `AttributeError` there, aborting the
constructor.  -/

/-- A possibly non-finite scalar from a calibration file: `none` is
non-finite, `some q` finite. -/
abbrev Val := Option ℚ

/-- `obj[invalid] = 0`: a non-finite entry reads as 0 after the check. -/
def finOrZero (v : Val) : ℚ := v.getD 0

/-- Number of non-finite entries among the first `n` of a flat tensor:
`np.logical_not(sp.isfinite(obj)).sum()`. -/
def countNF1 (n : Nat) (t : Nat → Val) : Nat :=
  ((List.range n).filter fun i => (t i).isNone).length

/-- Non-finite count of a `rows x cols` tensor, row-major. -/
def countNF2 (rows cols : Nat) (t : Nat → Nat → Val) : Nat :=
  countNF1 (rows * cols) fun i => t (i / cols) (i % cols)

/-- The attributes the `try` block of `Config.__init__` may bind; a field is
`none` when its assignment was never reached or its load raised. -/
structure CalAttrs where
  dark : Option (Nat → Nat → Val) := none
  wl : Option (Nat × (Nat → Val)) := none
  fwhm : Option (Nat × (Nat → Val)) := none
  srf_correction : Option (Nat → Nat → Val) := none
  crf_correction : Option (Nat → Nat → Val) := none
  bad : Option (Nat → Nat → Nat) := none
  flat_field : Option (Nat → Nat → Val) := none
  radiometric_calibration : Option (Nat × (Nat → Val)) := none
  linearity : Option (Nat → Nat) := none

/-- The loading environment: the dimensions and options of the JSON
configuration together with the referenced calibration files.  Binary files
are a count and flat contents; the two text tables are
(rows, columns, entries).  The `bad` and `linearity` files hold `uint16`
integers, which are always finite. -/
structure CalEnv where
  channels_raw : Nat
  columns_raw : Nat
  header_channels : Nat
  dark_channels : List Nat
  panel_width : Nat
  pg_template : List ℚ
  panel_ghost_correction : ℚ
  reverse_channels : Bool
  flat_field_limits : Option (ℚ × ℚ)
  dark_frame_file : Option (Nat × (Nat → Val))
  spectral_calibration_file : Option (Nat × Nat × (Nat → Nat → Val))
  srf_correction_file : Option (Nat × (Nat → Val))
  crf_correction_file : Option (Nat × (Nat → Val))
  bad_element_file : Option (Nat × (Nat → Nat))
  flat_field_file : Option (Nat × (Nat → Val))
  radiometric_coefficient_file : Option (Nat × Nat × (Nat → Nat → Val))
  linearity_file : Option (Nat × (Nat → Nat))

/-- The `try` block of `Config.__init__`: sequential loads, each binding an
attribute; an absent reference or a size mismatch stops the block, leaving
the remaining attributes unbound (`none`).  `dark` and `flat_field` bind
temporal sample 0 of their `(2, channels_raw, columns_raw)` files; `wl` and
`fwhm` are columns 1 and 2 of the spectral table times 1000 (a non-finite
entry stays non-finite under scaling); `radiometric_calibration` is column
0 of the radiometric table; a text table that does not have exactly 3
columns fails the 3-way tuple unpacking of `loadtxt(...).T`. -/
def tryLoad (env : CalEnv) : CalAttrs :=
  let ch := env.channels_raw
  let cols := env.columns_raw
  let A0 : CalAttrs := {}
  match env.dark_frame_file with
  | none => A0
  | some (cnt, d) =>
    if cnt ≠ 2 * ch * cols then A0 else
    let A1 : CalAttrs := { A0 with dark := some fun r c => d (r * cols + c) }
    match env.spectral_calibration_file with
    | none => A1
    | some (n, m, t) =>
      if m ≠ 3 then A1 else
      let A2 : CalAttrs := { A1 with
        wl := some (n, fun i => (t i 1).map fun x => x * 1000),
        fwhm := some (n, fun i => (t i 2).map fun x => x * 1000) }
      match env.srf_correction_file with
      | none => A2
      | some (cnt2, s) =>
        if cnt2 ≠ ch * ch then A2 else
        let A3 : CalAttrs :=
          { A2 with srf_correction := some fun i j => s (i * ch + j) }
        match env.crf_correction_file with
        | none => A3
        | some (cnt3, cr) =>
          if cnt3 ≠ cols * cols then A3 else
          let A4 : CalAttrs :=
            { A3 with crf_correction := some fun i j => cr (i * cols + j) }
          match env.bad_element_file with
          | none => A4
          | some (cnt4, b) =>
            if cnt4 ≠ ch * cols then A4 else
            let A5 : CalAttrs :=
              { A4 with bad := some fun r c => b (r * cols + c) }
            match env.flat_field_file with
            | none => A5
            | some (cnt5, fl) =>
              if cnt5 ≠ 2 * ch * cols then A5 else
              let A6 : CalAttrs :=
                { A5 with flat_field := some fun r c => fl (r * cols + c) }
              match env.radiometric_coefficient_file with
              | none => A6
              | some (nr, mr, tr) =>
                if mr ≠ 3 then A6 else
                let A7 : CalAttrs := { A6 with
                  radiometric_calibration := some (nr, fun i => tr i 0) }
                match env.linearity_file with
                | none => A7
                | some (cnt6, lint) =>
                  if cnt6 ≠ 65536 then A7 else
                  { A7 with linearity := some fun i => lint i }

/-- The truncation of the flat field to the configured limits, applied after
the non-finite check: first values below `lo` are raised to `lo`, then
values above `hi` are lowered to `hi`. -/
def clampFlat (lims : Option (ℚ × ℚ)) (x : ℚ) : ℚ :=
  match lims with
  | none => x
  | some (lo, hi) =>
    let y := if x < lo then lo else x
    if hi < y then hi else y

/-- The validated calibration data after `Config.__init__` succeeds.  The
eight checked tensors are stored with their non-finite entries replaced by
0 (and the flat field further clamped); `fwhm` is not in the check list and
keeps its raw `Val` entries.  `warnings` collects the per-tensor non-finite
replacement warnings, in check order.  -/
structure LoadedCal where
  dark : Nat → Nat → ℚ
  wlLen : Nat
  wl : Nat → ℚ
  fwhmLen : Nat
  fwhm : Nat → Val
  srf_correction : Nat → Nat → ℚ
  crf_correction : Nat → Nat → ℚ
  bad : Nat → Nat → Nat
  flat_field : Nat → Nat → ℚ
  radLen : Nat
  radiometric_calibration : Nat → ℚ
  linearity : Nat → Nat
  warnings : List (String × Nat)

/-- `Config.__init__` as a whole: the `try` block, then the non-finite check
loop over the eight names dark, wl, srf_correction, crf_correction, bad,
flat_field, radiometric_calibration, linearity (a `getattr` on an unbound
name aborts the constructor), then the flat-field truncation.  The `bad`
and `linearity` tensors hold integers, which are always finite, so their
replacement counts are 0 and they never warn.  `fwhm` is bound whenever
`wl` is, so its match can only succeed once `wl` has. -/
def loadConfig (env : CalEnv) : Except String LoadedCal :=
  let ch := env.channels_raw
  let cols := env.columns_raw
  let A := tryLoad env
  match A.dark with
  | none => .error "AttributeError: dark"
  | some dark =>
  match A.wl with
  | none => .error "AttributeError: wl"
  | some wlp =>
  match A.srf_correction with
  | none => .error "AttributeError: srf_correction"
  | some srf =>
  match A.crf_correction with
  | none => .error "AttributeError: crf_correction"
  | some crf =>
  match A.bad with
  | none => .error "AttributeError: bad"
  | some bad =>
  match A.flat_field with
  | none => .error "AttributeError: flat_field"
  | some flat =>
  match A.radiometric_calibration with
  | none => .error "AttributeError: radiometric_calibration"
  | some radp =>
  match A.linearity with
  | none => .error "AttributeError: linearity"
  | some lint =>
  match A.fwhm with
  | none => .error "AttributeError: fwhm"
  | some fwhmp =>
    let darkCnt := countNF2 ch cols dark
    let wlCnt := countNF1 wlp.1 wlp.2
    let srfCnt := countNF2 ch ch srf
    let crfCnt := countNF2 cols cols crf
    let flatCnt := countNF2 ch cols flat
    let radCnt := countNF1 radp.1 radp.2
    let warnings :=
      (if 0 < darkCnt then [("dark", darkCnt)] else []) ++
      (if 0 < wlCnt then [("wl", wlCnt)] else []) ++
      (if 0 < srfCnt then [("srf_correction", srfCnt)] else []) ++
      (if 0 < crfCnt then [("crf_correction", crfCnt)] else []) ++
      (if 0 < flatCnt then [("flat_field", flatCnt)] else []) ++
      (if 0 < radCnt then [("radiometric_calibration", radCnt)] else [])
    .ok {
      dark := fun r c => finOrZero (dark r c),
      wlLen := wlp.1, wl := fun i => finOrZero (wlp.2 i),
      fwhmLen := fwhmp.1, fwhm := fwhmp.2,
      srf_correction := fun i j => finOrZero (srf i j),
      crf_correction := fun i j => finOrZero (crf i j),
      bad := bad,
      flat_field := fun r c =>
        clampFlat env.flat_field_limits (finOrZero (flat r c)),
      radLen := radp.1,
      radiometric_calibration := fun i => finOrZero (radp.2 i),
      linearity := lint,
      warnings := warnings }

/-- The failure condition of calibration loading: some required reference
is absent, or some file size is inconsistent with the declared dimensions. -/
def refsBad (env : CalEnv) : Bool :=
  let ch := env.channels_raw
  let cols := env.columns_raw
  (match env.dark_frame_file with
   | none => true
   | some p => decide (p.1 ≠ 2 * ch * cols)) ||
  (match env.spectral_calibration_file with
   | none => true
   | some p => decide (p.2.1 ≠ 3)) ||
  (match env.srf_correction_file with
   | none => true
   | some p => decide (p.1 ≠ ch * ch)) ||
  (match env.crf_correction_file with
   | none => true
   | some p => decide (p.1 ≠ cols * cols)) ||
  (match env.bad_element_file with
   | none => true
   | some p => decide (p.1 ≠ ch * cols)) ||
  (match env.flat_field_file with
   | none => true
   | some p => decide (p.1 ≠ 2 * ch * cols)) ||
  (match env.radiometric_coefficient_file with
   | none => true
   | some p => decide (p.2.1 ≠ 3)) ||
  (match env.linearity_file with
   | none => true
   | some p => decide (p.1 ≠ 65536))

/-- The runtime configuration assembled from a loading environment and its
validated calibration data.  The boolean bad-pixel mask is the truthiness
of the `uint16` mask, as used by `sp.where` and `logical_not`. -/
def pipeOf (env : CalEnv) (L : LoadedCal) : PipeCfg := {
  channels_raw := env.channels_raw, columns_raw := env.columns_raw,
  header_channels := env.header_channels, dark := L.dark,
  dark_channels := env.dark_channels, panel_width := env.panel_width,
  pg_template := env.pg_template,
  panel_ghost_correction := env.panel_ghost_correction,
  flat_field := L.flat_field,
  bad := fun r c => decide (L.bad r c ≠ 0),
  srf_correction := L.srf_correction, crf_correction := L.crf_correction,
  radiometric_calibration := L.radiometric_calibration,
  reverse_channels := env.reverse_channels }

/-- `main`: construct the configuration, then stream the input through the
pipeline.  An exception in `Config.__init__` propagates before the input
file is ever opened.  A record size of 0 makes every read empty, so the
loop body never runs. -/
def runMain (env : CalEnv) (input : List ℤ) :
    Except String (List QFrame × Bool) :=
  match loadConfig env with
  | .error e => .error e
  | .ok L =>
    let cfg := pipeOf env L
    if h : 0 < nrawOf cfg then .ok (runStream cfg h input)
    else .ok ([], true)

/-- The warnings of a successful load (empty on failure). -/
def warningsOf (env : CalEnv) : List (String × Nat) :=
  match loadConfig env with
  | .ok L => L.warnings
  | .error _ => []

/-- The dark tensor of a successful load (zero on failure). -/
def loadedDarkOf (env : CalEnv) : Nat → Nat → ℚ :=
  match loadConfig env with
  | .ok L => L.dark
  | .error _ => fun _ _ => 0

/-- The wavelength vector of a successful load (zero on failure). -/
def loadedWlOf (env : CalEnv) : Nat → ℚ :=
  match loadConfig env with
  | .ok L => L.wl
  | .error _ => fun _ => 0

/-- The fwhm vector of a successful load, still `Val`-valued because the
non-finite check never visits it (zero on failure). -/
def loadedFwhmOf (env : CalEnv) : Nat → Val :=
  match loadConfig env with
  | .ok L => L.fwhm
  | .error _ => fun _ => some 0

/-- The spectral response matrix of a successful load (zero on failure). -/
def loadedSrfOf (env : CalEnv) : Nat → Nat → ℚ :=
  match loadConfig env with
  | .ok L => L.srf_correction
  | .error _ => fun _ _ => 0

/-- The spatial response matrix of a successful load (zero on failure). -/
def loadedCrfOf (env : CalEnv) : Nat → Nat → ℚ :=
  match loadConfig env with
  | .ok L => L.crf_correction
  | .error _ => fun _ _ => 0

/-- The flat field of a successful load (zero on failure). -/
def loadedFlatOf (env : CalEnv) : Nat → Nat → ℚ :=
  match loadConfig env with
  | .ok L => L.flat_field
  | .error _ => fun _ _ => 0

/-- The radiometric gains of a successful load (zero on failure). -/
def loadedRadOf (env : CalEnv) : Nat → ℚ :=
  match loadConfig env with
  | .ok L => L.radiometric_calibration
  | .error _ => fun _ => 0

/-! ## Concrete instances used by witnesses and counterexamples -/

/-- The dark tensor bound by `self.dark, _ = sp.fromfile(...).reshape((2,
channels_raw, columns_raw))`: tuple unpacking along axis 0 binds `dark` to
temporal sample 0 of the file, whose element `(r, c)` sits at flat index
`r * columns_raw + c`.  The second temporal sample is discarded. -/
def loadDark (columns_raw : Nat) (df : Nat → ℚ) : Nat → Nat → ℚ :=
  fun r c => df (r * columns_raw + c)

/-- Modelled from the spec words "2 temporal samples, mean used": the mean
of the two temporal samples of the dark frame file, for comparison with the
tensor the source actually binds. -/
def loadDarkMeanSpec (channels_raw columns_raw : Nat) (df : Nat → ℚ) :
    Nat → Nat → ℚ :=
  fun r c =>
    (df (r * columns_raw + c) +
      df (channels_raw * columns_raw + r * columns_raw + c)) / 2

/-- A concrete dark frame file whose two temporal samples differ: sample 0
holds 0, sample 1 holds 2 (shape `2 x 1 x 1`). -/
def dfC3 : Nat → ℚ := fun i => if i = 0 then 0 else 2

/-- A 1-by-1 configuration whose dark tensor is loaded from `dfC3`. -/
def cfgC3 : PipeCfg := {
  channels_raw := 1, columns_raw := 1, header_channels := 0,
  dark := loadDark 1 dfC3, dark_channels := [],
  panel_width := 0, pg_template := [], panel_ghost_correction := 0,
  flat_field := fun _ _ => 1,
  bad := fun _ _ => false,
  srf_correction := fun i j => if i = j then 1 else 0,
  crf_correction := fun i j => if i = j then 1 else 0,
  radiometric_calibration := fun _ => 1,
  reverse_channels := false }

/-- The all-zero 1-by-1 frame. -/
def frZ : QFrame := ⟨1, 1, fun _ _ => 0⟩

/-- A small configuration exercising the panel-ghost stage: four panels of
width 2, a one-entry ghost template, ghost coefficient 1/10. -/
def cfgPg : PipeCfg := {
  channels_raw := 1, columns_raw := 8, header_channels := 0,
  dark := fun _ _ => 0, dark_channels := [],
  panel_width := 2, pg_template := [1/2], panel_ghost_correction := 1/10,
  flat_field := fun _ _ => 1,
  bad := fun _ _ => false,
  srf_correction := fun i j => if i = j then 1 else 0,
  crf_correction := fun i j => if i = j then 1 else 0,
  radiometric_calibration := fun _ => 1,
  reverse_channels := false }

/-- A 1-by-8 frame whose entry at column `c` is `c`. -/
def frPg : QFrame := ⟨1, 8, fun _ c => (c : ℚ)⟩

/-- The bad-pixel repair example: a 3-by-3 frame with bad pixels at (2,0)
and (2,1); for each flagged column the best-correlated reference column is
the other flagged column, so the in-place writes of `infer_bad` interact. -/
def cfgEx : PipeCfg := {
  channels_raw := 3, columns_raw := 3, header_channels := 0,
  dark := fun _ _ => 0, dark_channels := [],
  panel_width := 0, pg_template := [], panel_ghost_correction := 0,
  flat_field := fun _ _ => 1,
  bad := fun r c => decide (r = 2 ∧ c < 2),
  srf_correction := fun i j => if i = j then 1 else 0,
  crf_correction := fun i j => if i = j then 1 else 0,
  radiometric_calibration := fun _ => 1,
  reverse_channels := false }

/-- The frame for `cfgEx`: clean rows 0 and 1 make columns 0 and 1
perfectly correlated with each other and orthogonal to column 2. -/
def frEx : QFrame := ⟨3, 3, fun r c =>
  if r = 0 then (if c = 2 then 0 else 1)
  else if r = 1 then (if c = 2 then 1 else 0)
  else (if c = 0 then 5 else if c = 1 then 7 else 9)⟩

/-- A configuration with channel reversal enabled, for the C10 witness. -/
def cfgRev : PipeCfg := { cfgPg with channels_raw := 2, reverse_channels := true }

/-- A 1-channel, 1-column configuration with one header channel, so that a
raw record holds 2 samples. -/
def cfgStream : PipeCfg := { cfgC3 with header_channels := 1 }

/-- An environment whose dark frame reference is absent. -/
def envBad : CalEnv := {
  channels_raw := 1, columns_raw := 1, header_channels := 1,
  dark_channels := [], panel_width := 0, pg_template := [],
  panel_ghost_correction := 0, reverse_channels := false,
  flat_field_limits := none,
  dark_frame_file := none,
  spectral_calibration_file := some (1, 3, fun _ _ => some 1),
  srf_correction_file := some (1, fun _ => some 1),
  crf_correction_file := some (1, fun _ => some 1),
  bad_element_file := some (1, fun _ => 0),
  flat_field_file := some (2, fun _ => some 1),
  radiometric_coefficient_file := some (1, 3, fun _ _ => some 1),
  linearity_file := some (65536, fun _ => 0) }

/-- An environment whose calibration data is entirely finite except the
fwhm column of the spectral calibration table, whose single entry is
non-finite. -/
def envC6 : CalEnv := {
  channels_raw := 1, columns_raw := 1, header_channels := 1,
  dark_channels := [], panel_width := 0, pg_template := [],
  panel_ghost_correction := 0, reverse_channels := false,
  flat_field_limits := none,
  dark_frame_file := some (2, fun _ => some 1),
  spectral_calibration_file :=
    some (1, 3, fun _ j => if j = 2 then none else some 1),
  srf_correction_file := some (1, fun _ => some 1),
  crf_correction_file := some (1, fun _ => some 1),
  bad_element_file := some (1, fun _ => 0),
  flat_field_file := some (2, fun _ => some 1),
  radiometric_coefficient_file := some (1, 3, fun _ _ => some 1),
  linearity_file := some (65536, fun _ => 0) }

/-- An environment whose dark frame holds one non-finite entry at position
(0,0) of temporal sample 0, everything else finite. -/
def envC6W : CalEnv := {
  channels_raw := 1, columns_raw := 1, header_channels := 1,
  dark_channels := [], panel_width := 0, pg_template := [],
  panel_ghost_correction := 0, reverse_channels := false,
  flat_field_limits := none,
  dark_frame_file := some (2, fun i => if i = 0 then none else some 1),
  spectral_calibration_file := some (1, 3, fun _ _ => some 1),
  srf_correction_file := some (1, fun _ => some 1),
  crf_correction_file := some (1, fun _ => some 1),
  bad_element_file := some (1, fun _ => 0),
  flat_field_file := some (2, fun _ => some 1),
  radiometric_coefficient_file := some (1, 3, fun _ _ => some 1),
  linearity_file := some (65536, fun _ => 0) }

/-! ## Claim C1: stage order of the correction pipeline -/

/-- C1: for every input frame, the pipeline applies its stages strictly in
the order dark subtraction, pedestal-shift correction, panel-ghost
correction, flat-field multiplication, bad-pixel repair, spectral response
correction, spatial response correction, per-channel radiometric scaling,
non-finite clamping, optional channel reversal. -/
theorem pipeline_stage_order (cfg : PipeCfg) (f : QFrame) :
    processFrame cfg f =
      (fun g => if cfg.reverse_channels then flip_channels g else g)
        (clamp_nonfinite (apply_radiometric cfg (correct_spatial_resp
          (correct_spectral_resp (fix_bad cfg (mul_flat_field cfg
            (correct_panel_ghost cfg (correct_pedestal_shift cfg
              (subtract_dark cfg f))))) cfg.srf_correction)
          cfg.crf_correction))) := rfl

/-! ## Claim C2: the panel-ghost correction formula -/

/-- C2: the panel-ghost stage adds, at position `(r, p*panel_width + j)` of
panel `p`, the ghost coefficient times the elementwise sum of the other
three panels outside the first `ntemplate` columns, and inside them the
template outer product of the other three panels' per-row means, scaled by
exactly 1.6 for the first two panels and exactly 1.0 for the last two. -/
theorem panel_ghost_formula (cfg : PipeCfg) (f : QFrame) (p r j : Nat)
    (hp : p < 4) (hj : j < cfg.panel_width)
    (_hnt : cfg.pg_template.length ≤ cfg.panel_width) :
    (correct_panel_ghost cfg f).data r (p * cfg.panel_width + j) =
      f.data r (p * cfg.panel_width + j) +
        (if j < cfg.pg_template.length then
          (if p < 2 then (1.6 : ℚ) else 1) *
            (((Finset.range 4).filter fun q => q ≠ p).sum fun q =>
              panelAvg cfg f q r) *
            cfg.pg_template.getD j 0
        else
          cfg.panel_ghost_correction *
            ((Finset.range 4).filter fun q => q ≠ p).sum fun q =>
              f.data r (q * cfg.panel_width + j)) := by
  have hexp : ∀ t : Nat → ℚ, ∀ q : Nat,
      (((Finset.range 4).filter fun x => x ≠ q).sum t) =
        (if 0 ≠ q then t 0 else 0) + (if 1 ≠ q then t 1 else 0) +
        (if 2 ≠ q then t 2 else 0) + (if 3 ≠ q then t 3 else 0) := by
    intro t q
    rw [Finset.sum_filter]
    rw [Finset.sum_range_succ, Finset.sum_range_succ, Finset.sum_range_succ,
      Finset.sum_range_succ, Finset.sum_range_zero]
    ring
  interval_cases p <;>
    simp only [correct_panel_ghost, Nat.zero_mul, Nat.one_mul,
      Nat.zero_add] <;>
    [skip;
     rw [if_neg (by omega), if_pos (by omega : cfg.panel_width + j <
       2 * cfg.panel_width)];
     rw [if_neg (by omega), if_neg (by omega), if_pos
       (by omega : 2 * cfg.panel_width + j < 3 * cfg.panel_width)];
     rw [if_neg (by omega), if_neg (by omega), if_neg (by omega), if_pos
       (by omega : 3 * cfg.panel_width + j < 4 * cfg.panel_width)]] <;>
    simp only [if_pos hj, Nat.add_sub_cancel_left, Nat.add_sub_cancel] <;>
    split <;>
    rw [hexp] <;>
    norm_num

/-- Witness for C2 at panel 1, row 0, in-panel column 1 of `frPg`. -/
theorem panel_ghost_formula_witness :
    (1 < 4 ∧ 1 < cfgPg.panel_width ∧
      cfgPg.pg_template.length ≤ cfgPg.panel_width) ∧
    (correct_panel_ghost cfgPg frPg).data 0 (1 * cfgPg.panel_width + 1) =
      frPg.data 0 (1 * cfgPg.panel_width + 1) +
        (if 1 < cfgPg.pg_template.length then
          (if 1 < 2 then (1.6 : ℚ) else 1) *
            (((Finset.range 4).filter fun q => q ≠ 1).sum fun q =>
              panelAvg cfgPg frPg q 0) *
            cfgPg.pg_template.getD 1 0
        else
          cfgPg.panel_ghost_correction *
            ((Finset.range 4).filter fun q => q ≠ 1).sum fun q =>
              frPg.data 0 (q * cfgPg.panel_width + 1)) :=
  ⟨⟨by norm_num, by norm_num [cfgPg], by norm_num [cfgPg]⟩,
    panel_ghost_formula cfgPg frPg 1 0 1 (by norm_num)
      (by norm_num [cfgPg]) (by norm_num [cfgPg])⟩

/-! ## Claims C5, C8, C9: behavior of the bad-pixel repair stage -/

/-- Invariant of the `fix_bad` loop: positions not flagged in the bad-pixel
mask are never written, neither in the accumulating `fixed` array nor in the
mutated input `frame` array. -/
theorem fix_bad_run_nonflagged (cfg : PipeCfg) (f0 : QFrame) :
    ∀ (l : List Nat) (fx fr : QFrame),
      (∀ r c, cfg.bad r c = false → fx.data r c = f0.data r c) →
      (∀ r c, cfg.bad r c = false → fr.data r c = f0.data r c) →
      ∀ r c, cfg.bad r c = false →
        (fix_bad_run cfg l (fx, fr)).1.data r c = f0.data r c ∧
        (fix_bad_run cfg l (fx, fr)).2.data r c = f0.data r c := by
  intro l
  induction l with
  | nil =>
    intro fx fr hfx hfr r c hb
    exact ⟨hfx r c hb, hfr r c hb⟩
  | cons col rest ih =>
    intro fx fr hfx hfr r c hb
    simp only [fix_bad_run]
    apply ih
    · intro r2 c2 hb2
      simp only
      split
      · rename_i hcol
        subst hcol
        simp only [infer_bad, hb2, Bool.false_eq_true, if_false]
        exact hfr r2 c2 hb2
      · exact hfx r2 c2 hb2
    · intro r2 c2 hb2
      simp only
      split
      · rename_i hcol
        subst hcol
        simp only [infer_bad, hb2, Bool.false_eq_true, if_false]
        exact hfr r2 c2 hb2
      · exact hfr r2 c2 hb2
    · exact hb

/-- C8: the frame returned by `fix_bad` agrees with its input at every
position not flagged in the bad-pixel mask. -/
theorem fix_bad_changes_only_flagged (cfg : PipeCfg) (f : QFrame)
    (r c : Nat) (h : cfg.bad r c = false) :
    (fix_bad cfg f).data r c = f.data r c :=
  (fix_bad_run_nonflagged cfg f (badColumns cfg) f f
    (fun _ _ _ => rfl) (fun _ _ _ => rfl) r c h).1

/-- Witness for C8 at the non-flagged position (0,0) of `frEx`. -/
theorem fix_bad_changes_only_flagged_witness :
    cfgEx.bad 0 0 = false ∧
    (fix_bad cfgEx frEx).data 0 0 = frEx.data 0 0 :=
  ⟨by decide, fix_bad_changes_only_flagged cfgEx frEx 0 0 (by decide)⟩

/-- C5 counterexample: `fix_bad` is not pure in its input array.  On the
concrete `frEx` the caller's frame holds 7 at the flagged position (2,0)
after the call (the original value was 5): `infer_bad` wrote the repaired
value through the view `new = frame[:,col]`. -/
theorem fix_bad_mutates_input :
    (fix_bad_after cfgEx frEx).data 2 0 ≠ frEx.data 2 0 := by
  with_unfolding_all decide

/-- C5 amended: the mutation of the input array is confined to flagged
positions; every non-flagged position of the caller's frame still holds its
original value after `fix_bad` returns. -/
theorem fix_bad_input_mutation_only_flagged (cfg : PipeCfg) (f : QFrame)
    (r c : Nat) (h : cfg.bad r c = false) :
    (fix_bad_after cfg f).data r c = f.data r c :=
  (fix_bad_run_nonflagged cfg f (badColumns cfg) f f
    (fun _ _ _ => rfl) (fun _ _ _ => rfl) r c h).2

/-- Witness for the amended C5 at the non-flagged position (1,1). -/
theorem fix_bad_input_mutation_only_flagged_witness :
    cfgEx.bad 1 1 = false ∧
    (fix_bad_after cfgEx frEx).data 1 1 = frEx.data 1 1 :=
  ⟨by decide, fix_bad_input_mutation_only_flagged cfgEx frEx 1 1 (by decide)⟩

/-- C9 counterexample: processing the flagged columns in the order [1, 0]
(a permutation of the reference ascending order [0, 1]) changes the result:
the repaired value at (2,1) is 5 instead of 7, because column 0 is the
regression reference for column 1 and is itself rewritten in place when it
is processed first. -/
theorem fix_bad_order_dependent :
    List.Perm [1, 0] (badColumns cfgEx) ∧
    (fix_bad_ordered cfgEx frEx [1, 0]).data 2 1 ≠
      (fix_bad cfgEx frEx).data 2 1 := by
  constructor
  · decide
  · with_unfolding_all decide

/-- C9 amended: the repaired frame is the one obtained by processing the
flagged columns in ascending column order; a different order may change the
result. -/
theorem fix_bad_reference_order (cfg : PipeCfg) (f : QFrame) :
    fix_bad cfg f = fix_bad_ordered cfg f (badColumns cfg) := rfl

/-! ## Claim C10: shape preservation -/

/-- The `fix_bad` loop never changes the shape of either array. -/
theorem fix_bad_run_shape (cfg : PipeCfg) :
    ∀ (l : List Nat) (s : QFrame × QFrame),
      (fix_bad_run cfg l s).1.rows = s.1.rows ∧
      (fix_bad_run cfg l s).1.cols = s.1.cols := by
  intro l
  induction l with
  | nil => intro s; exact ⟨rfl, rfl⟩
  | cons col rest ih =>
    intro s
    simp only [fix_bad_run]
    exact ih _

/-- `fix_bad` preserves the number of rows. -/
theorem fix_bad_rows (cfg : PipeCfg) (f : QFrame) :
    (fix_bad cfg f).rows = f.rows :=
  (fix_bad_run_shape cfg (badColumns cfg) (f, f)).1

/-- `fix_bad` preserves the number of columns. -/
theorem fix_bad_cols (cfg : PipeCfg) (f : QFrame) :
    (fix_bad cfg f).cols = f.cols :=
  (fix_bad_run_shape cfg (badColumns cfg) (f, f)).2

/-- The correction chain before the optional reversal preserves the number
of rows. -/
theorem processFrameNoRev_rows (cfg : PipeCfg) (f : QFrame) :
    (processFrameNoRev cfg f).rows = f.rows := by
  show (fix_bad cfg (mul_flat_field cfg (correct_panel_ghost cfg
    (correct_pedestal_shift cfg (subtract_dark cfg f))))).rows = f.rows
  rw [fix_bad_rows]
  rfl

/-- The correction chain before the optional reversal preserves the number
of columns. -/
theorem processFrameNoRev_cols (cfg : PipeCfg) (f : QFrame) :
    (processFrameNoRev cfg f).cols = f.cols := by
  show (fix_bad cfg (mul_flat_field cfg (correct_panel_ghost cfg
    (correct_pedestal_shift cfg (subtract_dark cfg f))))).cols = f.cols
  rw [fix_bad_cols]
  rfl

/-- C10: the corrected frame emitted for a decoded record has exactly the
shape `channels_raw x columns_raw` of the header-stripped input frame, and
when channel reversal is configured the shape is unchanged and only the row
order is reversed. -/
theorem corrected_frame_shape (cfg : PipeCfg) (chunk : List ℤ) :
    (processFrame cfg (decodeChunk cfg chunk)).rows = cfg.channels_raw ∧
    (processFrame cfg (decodeChunk cfg chunk)).cols = cfg.columns_raw ∧
    (cfg.reverse_channels = true → ∀ r c,
      (processFrame cfg (decodeChunk cfg chunk)).data r c =
        (processFrameNoRev cfg (decodeChunk cfg chunk)).data
          (cfg.channels_raw - 1 - r) c) := by
  have hrows : (processFrameNoRev cfg (decodeChunk cfg chunk)).rows =
      cfg.channels_raw := processFrameNoRev_rows cfg (decodeChunk cfg chunk)
  have hcols : (processFrameNoRev cfg (decodeChunk cfg chunk)).cols =
      cfg.columns_raw := processFrameNoRev_cols cfg (decodeChunk cfg chunk)
  unfold processFrame
  cases hrev : cfg.reverse_channels with
  | false =>
    refine ⟨?_, ?_, ?_⟩
    · simp [hrows]
    · simp [hcols]
    · intro h
      exact absurd h (by simp)
  | true =>
    refine ⟨?_, ?_, ?_⟩
    · simp [flip_channels, hrows]
    · simp [flip_channels, hcols]
    · intro _ r c
      simp [flip_channels, hrows]

/-- Witness for C10: with reversal enabled, the output at row 0 is the
pre-reversal result at row `channels_raw - 1 - 0`. -/
theorem corrected_frame_shape_witness :
    cfgRev.reverse_channels = true ∧
    (processFrame cfgRev (decodeChunk cfgRev [1, 2, 3])).data 0 0 =
      (processFrameNoRev cfgRev (decodeChunk cfgRev [1, 2, 3])).data
        (cfgRev.channels_raw - 1 - 0) 0 :=
  ⟨rfl, (corrected_frame_shape cfgRev [1, 2, 3]).2.2 rfl 0 0⟩

/-! ## Claim C3: the dark reference used by dark subtraction -/

/-- C3 counterexample: dark subtraction does not subtract the mean of the
two temporal samples.  On `dfC3` the stage subtracts sample 0 (namely 0),
while the mean is 1. -/
theorem dark_mean_claim_false :
    (subtract_dark cfgC3 frZ).data 0 0 ≠
      frZ.data 0 0 - loadDarkMeanSpec 1 1 dfC3 0 0 := by
  with_unfolding_all decide

/-- C3 amended: the dark reference is the first of the two temporal samples
in the dark frame file, and stage 1 subtracts that tensor elementwise. -/
theorem subtract_dark_first_sample (cols : Nat) (df : Nat → ℚ)
    (cfg : PipeCfg) (f : QFrame) (r c : Nat)
    (hdark : cfg.dark = loadDark cols df) :
    (subtract_dark cfg f).data r c = f.data r c - df (r * cols + c) := by
  simp [subtract_dark, loadDark, hdark]

/-- Witness for the amended C3 on `cfgC3`. -/
theorem subtract_dark_first_sample_witness :
    cfgC3.dark = loadDark 1 dfC3 ∧
    (subtract_dark cfgC3 frZ).data 0 0 = frZ.data 0 0 - dfC3 (0 * 1 + 0) :=
  ⟨rfl, subtract_dark_first_sample 1 dfC3 cfgC3 frZ 0 0 rfl⟩

/-! ## Claim C4: calibration failures abort before any frame -/

/-- When any required reference is absent or any size is inconsistent, the
`try` block stops before its last assignment, so `linearity` stays unbound. -/
theorem tryLoad_linearity_none (env : CalEnv) (h : refsBad env = true) :
    (tryLoad env).linearity = none := by
  unfold refsBad at h
  unfold tryLoad
  cases hf1 : env.dark_frame_file with
  | none => rfl
  | some p1 =>
  obtain ⟨c1, d1⟩ := p1
  dsimp only
  by_cases hs1 : c1 ≠ 2 * env.channels_raw * env.columns_raw
  · rw [if_pos hs1]
  · rw [if_neg hs1]
    simp only [hf1, decide_eq_false hs1, Bool.false_or] at h
    cases hf2 : env.spectral_calibration_file with
    | none => rfl
    | some p2 =>
    obtain ⟨n2, m2, t2⟩ := p2
    dsimp only
    by_cases hs2 : m2 ≠ 3
    · rw [if_pos hs2]
    · rw [if_neg hs2]
      simp only [hf2, decide_eq_false hs2, Bool.false_or] at h
      cases hf3 : env.srf_correction_file with
      | none => rfl
      | some p3 =>
      obtain ⟨c3, s3⟩ := p3
      dsimp only
      by_cases hs3 : c3 ≠ env.channels_raw * env.channels_raw
      · rw [if_pos hs3]
      · rw [if_neg hs3]
        simp only [hf3, decide_eq_false hs3, Bool.false_or] at h
        cases hf4 : env.crf_correction_file with
        | none => rfl
        | some p4 =>
        obtain ⟨c4, r4⟩ := p4
        dsimp only
        by_cases hs4 : c4 ≠ env.columns_raw * env.columns_raw
        · rw [if_pos hs4]
        · rw [if_neg hs4]
          simp only [hf4, decide_eq_false hs4, Bool.false_or] at h
          cases hf5 : env.bad_element_file with
          | none => rfl
          | some p5 =>
          obtain ⟨c5, b5⟩ := p5
          dsimp only
          by_cases hs5 : c5 ≠ env.channels_raw * env.columns_raw
          · rw [if_pos hs5]
          · rw [if_neg hs5]
            simp only [hf5, decide_eq_false hs5, Bool.false_or] at h
            cases hf6 : env.flat_field_file with
            | none => rfl
            | some p6 =>
            obtain ⟨c6, l6⟩ := p6
            dsimp only
            by_cases hs6 : c6 ≠ 2 * env.channels_raw * env.columns_raw
            · rw [if_pos hs6]
            · rw [if_neg hs6]
              simp only [hf6, decide_eq_false hs6, Bool.false_or] at h
              cases hf7 : env.radiometric_coefficient_file with
              | none => rfl
              | some p7 =>
              obtain ⟨n7, m7, t7⟩ := p7
              dsimp only
              by_cases hs7 : m7 ≠ 3
              · rw [if_pos hs7]
              · rw [if_neg hs7]
                simp only [hf7, decide_eq_false hs7, Bool.false_or] at h
                cases hf8 : env.linearity_file with
                | none => rfl
                | some p8 =>
                obtain ⟨c8, l8⟩ := p8
                dsimp only
                by_cases hs8 : c8 ≠ 65536
                · rw [if_pos hs8]
                · exfalso
                  simp only [hf8, decide_eq_false hs8] at h
                  exact Bool.false_ne_true h

/-- C4: whenever a required calibration reference is absent or a file size
is inconsistent with the declared dimensions, `Config` construction raises
and `main` aborts before any frame is processed: the run produces an error
and no output frames. -/
theorem calibration_failure_aborts (env : CalEnv) (input : List ℤ)
    (h : refsBad env = true) :
    ∃ e, loadConfig env = Except.error e ∧
      runMain env input = Except.error e := by
  have hlin := tryLoad_linearity_none env h
  have herr : ∃ e, loadConfig env = Except.error e := by
    simp only [loadConfig]
    repeat' split
    all_goals first
      | exact ⟨_, rfl⟩
      | simp_all
  obtain ⟨e, he⟩ := herr
  refine ⟨e, he, ?_⟩
  unfold runMain
  rw [he]

/-- Witness for C4 on `envBad`. -/
theorem calibration_failure_aborts_witness :
    refsBad envBad = true ∧
    ∃ e, loadConfig envBad = Except.error e ∧
      runMain envBad [] = Except.error e :=
  ⟨rfl, calibration_failure_aborts envBad [] rfl⟩

/-! ## Claim C6: non-finite calibration entries -/

/-- A witnessed non-finite entry makes the replacement count positive. -/
theorem countNF1_pos (n : Nat) (t : Nat → Val) (i : Nat) (hi : i < n)
    (hnone : t i = none) : 0 < countNF1 n t := by
  have hmem : i ∈ (List.range n).filter fun j => (t j).isNone :=
    List.mem_filter.mpr ⟨List.mem_range.mpr hi, by simp [hnone]⟩
  exact List.length_pos_of_mem hmem

/-- A witnessed non-finite entry of a 2-D tensor makes the replacement
count positive. -/
theorem countNF2_pos (rows cols : Nat) (t : Nat → Nat → Val) (r c : Nat)
    (hr : r < rows) (hc : c < cols) (hnone : t r c = none) :
    0 < countNF2 rows cols t := by
  have hcols : 0 < cols := lt_of_le_of_lt (Nat.zero_le c) hc
  have hdiv : (r * cols + c) / cols = r := by
    rw [Nat.add_comm, Nat.add_mul_div_right _ _ hcols,
      Nat.div_eq_of_lt hc, Nat.zero_add]
  have hmod : (r * cols + c) % cols = c := by
    rw [Nat.add_comm, Nat.add_mul_mod_self_right, Nat.mod_eq_of_lt hc]
  apply countNF1_pos _ _ (r * cols + c)
  · calc r * cols + c < r * cols + cols := by omega
    _ = (r + 1) * cols := by ring
    _ ≤ rows * cols := Nat.mul_le_mul_right _ hr
  · simp only [hdiv, hmod]
    exact hnone

/-- C6 counterexample: loading `envC6` succeeds, yet the non-finite fwhm
entry does not read as 0 afterwards (it is still non-finite) and no warning
at all is recorded: the check loop never visits `fwhm`. -/
theorem fwhm_nonfinite_persists :
    (loadConfig envC6).isOk = true ∧
    loadedFwhmOf envC6 0 = none ∧
    warningsOf envC6 = [] := by
  refine ⟨?_, ?_, ?_⟩ <;> with_unfolding_all decide

/-- C6 amended: the non-finite check covers exactly the eight tensors dark,
wl, srf_correction, crf_correction, bad, flat_field,
radiometric_calibration, linearity (fwhm is not visited; bad and linearity
are integer tensors with no non-finite values).  In each checked tensor a
non-finite raw entry reads as 0 after the check — the flat field may then
be clamped to the configured limits — and each tensor that contained
non-finite values gets a warning carrying its replacement count. -/
theorem nonfinite_checked_tensors_zeroed (env : CalEnv)
    (c1 : Nat) (d1 : Nat → Val)
    (hf1 : env.dark_frame_file = some (c1, d1))
    (hc1 : c1 = 2 * env.channels_raw * env.columns_raw)
    (n2 m2 : Nat) (t2 : Nat → Nat → Val)
    (hf2 : env.spectral_calibration_file = some (n2, m2, t2))
    (hc2 : m2 = 3)
    (c3 : Nat) (s3 : Nat → Val)
    (hf3 : env.srf_correction_file = some (c3, s3))
    (hc3 : c3 = env.channels_raw * env.channels_raw)
    (c4 : Nat) (r4 : Nat → Val)
    (hf4 : env.crf_correction_file = some (c4, r4))
    (hc4 : c4 = env.columns_raw * env.columns_raw)
    (c5 : Nat) (b5 : Nat → Nat)
    (hf5 : env.bad_element_file = some (c5, b5))
    (hc5 : c5 = env.channels_raw * env.columns_raw)
    (c6 : Nat) (l6 : Nat → Val)
    (hf6 : env.flat_field_file = some (c6, l6))
    (hc6 : c6 = 2 * env.channels_raw * env.columns_raw)
    (n7 m7 : Nat) (t7 : Nat → Nat → Val)
    (hf7 : env.radiometric_coefficient_file = some (n7, m7, t7))
    (hc7 : m7 = 3)
    (c8 : Nat) (l8 : Nat → Nat)
    (hf8 : env.linearity_file = some (c8, l8))
    (hc8 : c8 = 65536) :
    (∀ r c, d1 (r * env.columns_raw + c) = none →
      loadedDarkOf env r c = 0) ∧
    (∀ r c, r < env.channels_raw → c < env.columns_raw →
      d1 (r * env.columns_raw + c) = none →
      ("dark", countNF2 env.channels_raw env.columns_raw
        fun r c => d1 (r * env.columns_raw + c)) ∈ warningsOf env) ∧
    (∀ i, t2 i 1 = none → loadedWlOf env i = 0) ∧
    (∀ i, i < n2 → t2 i 1 = none →
      ("wl", countNF1 n2 fun i => (t2 i 1).map fun x => x * 1000) ∈
        warningsOf env) ∧
    (∀ i j, s3 (i * env.channels_raw + j) = none →
      loadedSrfOf env i j = 0) ∧
    (∀ i j, i < env.channels_raw → j < env.channels_raw →
      s3 (i * env.channels_raw + j) = none →
      ("srf_correction", countNF2 env.channels_raw env.channels_raw
        fun i j => s3 (i * env.channels_raw + j)) ∈ warningsOf env) ∧
    (∀ i j, r4 (i * env.columns_raw + j) = none →
      loadedCrfOf env i j = 0) ∧
    (∀ i j, i < env.columns_raw → j < env.columns_raw →
      r4 (i * env.columns_raw + j) = none →
      ("crf_correction", countNF2 env.columns_raw env.columns_raw
        fun i j => r4 (i * env.columns_raw + j)) ∈ warningsOf env) ∧
    (∀ r c, l6 (r * env.columns_raw + c) = none →
      loadedFlatOf env r c = clampFlat env.flat_field_limits 0) ∧
    (∀ r c, r < env.channels_raw → c < env.columns_raw →
      l6 (r * env.columns_raw + c) = none →
      ("flat_field", countNF2 env.channels_raw env.columns_raw
        fun r c => l6 (r * env.columns_raw + c)) ∈ warningsOf env) ∧
    (∀ i, t7 i 0 = none → loadedRadOf env i = 0) ∧
    (∀ i, i < n7 → t7 i 0 = none →
      ("radiometric_calibration", countNF1 n7 fun i => t7 i 0) ∈
        warningsOf env) := by
  have hok : loadConfig env = Except.ok {
      dark := fun r c => finOrZero (d1 (r * env.columns_raw + c)),
      wlLen := n2,
      wl := fun i => finOrZero ((t2 i 1).map fun x => x * 1000),
      fwhmLen := n2, fwhm := fun i => (t2 i 2).map fun x => x * 1000,
      srf_correction := fun i j =>
        finOrZero (s3 (i * env.channels_raw + j)),
      crf_correction := fun i j =>
        finOrZero (r4 (i * env.columns_raw + j)),
      bad := fun r c => b5 (r * env.columns_raw + c),
      flat_field := fun r c => clampFlat env.flat_field_limits
        (finOrZero (l6 (r * env.columns_raw + c))),
      radLen := n7, radiometric_calibration := fun i => finOrZero (t7 i 0),
      linearity := fun i => l8 i,
      warnings :=
        (if 0 < countNF2 env.channels_raw env.columns_raw
            (fun r c => d1 (r * env.columns_raw + c)) then
          [("dark", countNF2 env.channels_raw env.columns_raw
            fun r c => d1 (r * env.columns_raw + c))] else []) ++
        (if 0 < countNF1 n2
            (fun i => (t2 i 1).map fun x => x * 1000) then
          [("wl", countNF1 n2 fun i => (t2 i 1).map fun x => x * 1000)]
          else []) ++
        (if 0 < countNF2 env.channels_raw env.channels_raw
            (fun i j => s3 (i * env.channels_raw + j)) then
          [("srf_correction", countNF2 env.channels_raw env.channels_raw
            fun i j => s3 (i * env.channels_raw + j))] else []) ++
        (if 0 < countNF2 env.columns_raw env.columns_raw
            (fun i j => r4 (i * env.columns_raw + j)) then
          [("crf_correction", countNF2 env.columns_raw env.columns_raw
            fun i j => r4 (i * env.columns_raw + j))] else []) ++
        (if 0 < countNF2 env.channels_raw env.columns_raw
            (fun r c => l6 (r * env.columns_raw + c)) then
          [("flat_field", countNF2 env.channels_raw env.columns_raw
            fun r c => l6 (r * env.columns_raw + c))] else []) ++
        (if 0 < countNF1 n7 (fun i => t7 i 0) then
          [("radiometric_calibration", countNF1 n7 fun i => t7 i 0)]
          else []) } := by
    simp [loadConfig, tryLoad, hf1, hc1, hf2, hc2, hf3, hc3, hf4, hc4,
      hf5, hc5, hf6, hc6, hf7, hc7, hf8, hc8]
  refine ⟨?_, ?_, ?_, ?_, ?_, ?_, ?_, ?_, ?_, ?_, ?_, ?_⟩
  · intro r c hnone
    simp [loadedDarkOf, hok, finOrZero, hnone]
  · intro r c hr hc hnone
    have hpos := countNF2_pos env.channels_raw env.columns_raw
      (fun r c => d1 (r * env.columns_raw + c)) r c hr hc hnone
    simp only [warningsOf, hok, if_pos hpos]
    simp
  · intro i hnone
    simp [loadedWlOf, hok, finOrZero, hnone]
  · intro i hi hnone
    have hpos := countNF1_pos n2
      (fun i => (t2 i 1).map fun x => x * 1000) i hi (by simp [hnone])
    simp only [warningsOf, hok, if_pos hpos]
    simp
  · intro i j hnone
    simp [loadedSrfOf, hok, finOrZero, hnone]
  · intro i j hi hj hnone
    have hpos := countNF2_pos env.channels_raw env.channels_raw
      (fun i j => s3 (i * env.channels_raw + j)) i j hi hj hnone
    simp only [warningsOf, hok, if_pos hpos]
    simp
  · intro i j hnone
    simp [loadedCrfOf, hok, finOrZero, hnone]
  · intro i j hi hj hnone
    have hpos := countNF2_pos env.columns_raw env.columns_raw
      (fun i j => r4 (i * env.columns_raw + j)) i j hi hj hnone
    simp only [warningsOf, hok, if_pos hpos]
    simp
  · intro r c hnone
    simp [loadedFlatOf, hok, finOrZero, hnone]
  · intro r c hr hc hnone
    have hpos := countNF2_pos env.channels_raw env.columns_raw
      (fun r c => l6 (r * env.columns_raw + c)) r c hr hc hnone
    simp only [warningsOf, hok, if_pos hpos]
    simp
  · intro i hnone
    simp [loadedRadOf, hok, finOrZero, hnone]
  · intro i hi hnone
    have hpos := countNF1_pos n7 (fun i => t7 i 0) i hi hnone
    simp only [warningsOf, hok, if_pos hpos]
    simp

/-- Witness for the amended C6: on `envC6W` the non-finite dark entry reads
as 0 and the dark warning with count 1 is recorded. -/
theorem nonfinite_checked_tensors_zeroed_witness :
    loadedDarkOf envC6W 0 0 = 0 ∧
    ("dark", 1) ∈ warningsOf envC6W := by
  have H := nonfinite_checked_tensors_zeroed envC6W
    2 (fun i => if i = 0 then none else some 1) rfl (by norm_num [envC6W])
    1 3 (fun _ _ => some 1) rfl rfl
    1 (fun _ => some 1) rfl (by norm_num [envC6W])
    1 (fun _ => some 1) rfl (by norm_num [envC6W])
    1 (fun _ => 0) rfl (by norm_num [envC6W])
    2 (fun _ => some 1) rfl (by norm_num [envC6W])
    1 3 (fun _ _ => some 1) rfl rfl
    65536 (fun _ => 0) rfl rfl
  refine ⟨H.1 0 0 rfl, ?_⟩
  have hcnt : countNF2 envC6W.channels_raw envC6W.columns_raw
      (fun r c => (fun i => if i = 0 then none else some (1 : ℚ))
        (r * envC6W.columns_raw + c)) = 1 := by
    with_unfolding_all decide
  have hmem := H.2.1 0 0 (by norm_num [envC6W]) (by norm_num [envC6W]) rfl
  rw [hcnt] at hmem
  exact hmem

/-! ## Claim C7: end of stream and short trailing records -/

/-- C7 counterexample: on the 3-sample input `[1, 2, 3]` (one complete
2-sample record and a 1-sample trailing record) the loop does not terminate
cleanly: the nonzero short read enters the loop body and
`raw.reshape(config.raw_shape)` raises `ValueError`.  The one complete
preceding frame was processed and written. -/
theorem short_record_raises :
    (runStream cfgStream (by decide) [1, 2, 3]).1.length = 1 ∧
    (runStream cfgStream (by decide) [1, 2, 3]).2 = false := by
  have h2 : nrawOf cfgStream = 2 := rfl
  unfold runStream
  norm_num [h2]
  unfold runStream
  norm_num [h2]

/-- C7 amended: the loop emits one processed frame per complete record; it
terminates cleanly exactly when the input length is a multiple of the
record size (the final read is then empty), and a nonzero short trailing
record instead aborts the loop with a reshape error after all preceding
complete frames were processed and written. -/
theorem runStream_chunks (cfg : PipeCfg) (hn : 0 < nrawOf cfg)
    (input : List ℤ) :
    (runStream cfg hn input).1.length = input.length / nrawOf cfg ∧
    ((runStream cfg hn input).2 = true ↔
      input.length % nrawOf cfg = 0) := by
  suffices H : ∀ N (input : List ℤ), input.length ≤ N →
      (runStream cfg hn input).1.length = input.length / nrawOf cfg ∧
      ((runStream cfg hn input).2 = true ↔
        input.length % nrawOf cfg = 0) from H input.length input le_rfl
  intro N
  induction N with
  | zero =>
    intro input hlen
    have h0 : input.length = 0 := Nat.le_zero.mp hlen
    unfold runStream
    simp [h0]
  | succ N ih =>
    intro input hlen
    by_cases h0 : input.length = 0
    · unfold runStream
      simp [h0]
    · by_cases hshort : input.length < nrawOf cfg
      · unfold runStream
        rw [if_neg h0, if_pos hshort]
        refine ⟨(Nat.div_eq_of_lt hshort).symm, ?_⟩
        rw [Nat.mod_eq_of_lt hshort]
        simp [h0]
      · have hge : nrawOf cfg ≤ input.length := le_of_not_lt hshort
        have hrec := ih (input.drop (nrawOf cfg))
          (by rw [List.length_drop]; omega)
        unfold runStream
        rw [if_neg h0, if_neg hshort]
        refine ⟨?_, ?_⟩
        · simp only [List.length_cons, hrec.1, List.length_drop]
          rw [Nat.div_eq_sub_div hn hge]
        · simp only [hrec.2, List.length_drop]
          rw [Nat.mod_eq_sub_mod hge]

/-- Witness for the amended C7 on a 4-sample input (two complete records). -/
theorem runStream_chunks_witness :
    (runStream cfgStream (by decide) [1, 2, 3, 4]).1.length =
      [1, 2, 3, 4].length / nrawOf cfgStream ∧
    ((runStream cfgStream (by decide) [1, 2, 3, 4]).2 = true ↔
      [1, 2, 3, 4].length % nrawOf cfgStream = 0) :=
  runStream_chunks cfgStream (by decide) [1, 2, 3, 4]

/-- Soundness of the rational pair representation used by `simLe`: for
positive squared norms, `simLe` decides exactly the real comparison of the
cosine similarities `d / sqrt s` that the source computes in floating
point. -/
theorem simLe_iff_cosine (d1 s1 d2 s2 : ℚ) (h1 : 0 < s1) (h2 : 0 < s2) :
    simLe (d1, s1) (d2, s2) = true ↔
      (d1 : ℝ) / Real.sqrt (s1 : ℝ) ≤ (d2 : ℝ) / Real.sqrt (s2 : ℝ) := by
  have hs1 : (0 : ℝ) < Real.sqrt (s1 : ℝ) :=
    Real.sqrt_pos.mpr (by exact_mod_cast h1)
  have hs2 : (0 : ℝ) < Real.sqrt (s2 : ℝ) :=
    Real.sqrt_pos.mpr (by exact_mod_cast h2)
  have hq1 : Real.sqrt (s1 : ℝ) ^ 2 = (s1 : ℝ) :=
    Real.sq_sqrt (le_of_lt (by exact_mod_cast h1))
  have hq2 : Real.sqrt (s2 : ℝ) ^ 2 = (s2 : ℝ) :=
    Real.sq_sqrt (le_of_lt (by exact_mod_cast h2))
  have ea : ((d1 : ℝ) * Real.sqrt (s2 : ℝ)) ^ 2 = (d1 : ℝ) ^ 2 * (s2 : ℝ) := by
    rw [mul_pow, hq2]
  have eb : ((d2 : ℝ) * Real.sqrt (s1 : ℝ)) ^ 2 = (d2 : ℝ) ^ 2 * (s1 : ℝ) := by
    rw [mul_pow, hq1]
  have keyNeg : ∀ x y : ℝ, x ≤ 0 → y ≤ 0 → (x ^ 2 ≤ y ^ 2 ↔ y ≤ x) := by
    intro x y hx hy
    rw [show x ^ 2 = (-x) ^ 2 by ring, show y ^ 2 = (-y) ^ 2 by ring]
    rw [pow_le_pow_iff_left (by linarith) (by linarith) (by norm_num)]
    constructor <;> intro <;> linarith
  have keyPos : ∀ x y : ℝ, 0 ≤ x → 0 ≤ y → (x ^ 2 ≤ y ^ 2 ↔ x ≤ y) := by
    intro x y hx hy
    exact pow_le_pow_iff_left hx hy (by norm_num)
  rw [div_le_div_iff hs1 hs2]
  unfold simLe
  by_cases hd1 : d1 ≤ 0
  · have ha : (d1 : ℝ) ≤ 0 := by exact_mod_cast hd1
    have ha2 : (d1 : ℝ) * Real.sqrt (s2 : ℝ) ≤ 0 :=
      mul_nonpos_iff.mpr (Or.inr ⟨ha, hs2.le⟩)
    by_cases hd2 : 0 ≤ d2
    · have hb : (0 : ℝ) ≤ (d2 : ℝ) := by exact_mod_cast hd2
      have hb2 : 0 ≤ (d2 : ℝ) * Real.sqrt (s1 : ℝ) := mul_nonneg hb hs1.le
      simp only [if_pos hd1, if_pos hd2, true_iff]
      linarith
    · push_neg at hd2
      have hb : (d2 : ℝ) < 0 := by exact_mod_cast hd2
      have hb2 : (d2 : ℝ) * Real.sqrt (s1 : ℝ) ≤ 0 :=
        mul_nonpos_iff.mpr (Or.inr ⟨hb.le, hs1.le⟩)
      simp only [if_pos hd1, if_neg (not_le.mpr hd2), decide_eq_true_eq]
      have hcast : (d2 ^ 2 * s1 ≤ d1 ^ 2 * s2) ↔
          ((d2 : ℝ) ^ 2 * (s1 : ℝ) ≤ (d1 : ℝ) ^ 2 * (s2 : ℝ)) := by
        constructor <;> intro h <;> exact_mod_cast h
      rw [hcast, ← ea, ← eb]
      exact keyNeg _ _ hb2 ha2
  · push_neg at hd1
    have ha : (0 : ℝ) < (d1 : ℝ) := by exact_mod_cast hd1
    have ha2 : 0 < (d1 : ℝ) * Real.sqrt (s2 : ℝ) := mul_pos ha hs2
    by_cases hd2 : d2 ≤ 0
    · have hb : (d2 : ℝ) ≤ 0 := by exact_mod_cast hd2
      have hb2 : (d2 : ℝ) * Real.sqrt (s1 : ℝ) ≤ 0 :=
        mul_nonpos_iff.mpr (Or.inr ⟨hb, hs1.le⟩)
      simp only [if_neg (not_le.mpr hd1), if_pos hd2]
      exact iff_of_false (by simp) (not_le.mpr (lt_of_le_of_lt hb2 ha2))
    · push_neg at hd2
      have hb : (0 : ℝ) < (d2 : ℝ) := by exact_mod_cast hd2
      have hb2 : 0 ≤ (d2 : ℝ) * Real.sqrt (s1 : ℝ) :=
        mul_nonneg hb.le hs1.le
      simp only [if_neg (not_le.mpr hd1), if_neg (not_le.mpr hd2),
        decide_eq_true_eq]
      have hcast : (d1 ^ 2 * s2 ≤ d2 ^ 2 * s1) ↔
          ((d1 : ℝ) ^ 2 * (s2 : ℝ) ≤ (d2 : ℝ) ^ 2 * (s1 : ℝ)) := by
        constructor <;> intro h <;> exact_mod_cast h
      rw [hcast, ← ea, ← eb]
      exact keyPos _ _ (mul_nonneg ha.le hs2.le) hb2

end EmitRdn
